import Mathlib

/-!
Verification of the AJA capture source (`plugins/aja/aja-source.cpp`).

The development shallowly embeds the plugin's capture-thread loop, audio
ring-buffer offset tracking, wire-format resolution, test-pattern
generation and the `aja_source_update` control flow.  Hardware (CNTV2Card)
responses and external SDK helpers are modelled as oracle functions in an
environment record; 32-bit unsigned (`ULWord`) arithmetic is modelled on
`Nat` with explicit reduction modulo `2 ^ 32`.
-/

namespace Aja

/-! ## ULWord (32-bit unsigned) arithmetic -/

/-- The modulus of `ULWord` (32-bit unsigned) arithmetic. -/
def w32 : Nat := 2 ^ 32

/-- `ULWord` addition: wraps modulo `2 ^ 32`. -/
def add32 (a b : Nat) : Nat := (a + b) % w32

/-- `ULWord` subtraction: for `a, b < 2 ^ 32` this agrees with the C
unsigned subtraction `a - b`. -/
def sub32 (a b : Nat) : Nat := (w32 + a - b) % w32

/-- `x & ~0x3`: clear the two low bits ("Force DWORD alignment"). -/
def align4 (a : Nat) : Nat := a - a % 4

/-! ## Formats and selections (NTV2 enumerations) -/

/-- `NTV2VideoFormat`: we single out the two values the source inspects
(`NTV2_FORMAT_UNKNOWN`, `NTV2_FORMAT_720p_5994`); all other members of the
enumeration are `other n`. -/
inductive VideoFormat
  | unknown
  | f720p5994
  | other (n : Nat)
deriving DecidableEq

/-- `NTV2PixelFormat`: we single out `NTV2_FBF_INVALID`,
`NTV2_FBF_8BIT_YCBCR` and `NTV2_FBF_24BIT_BGR`; the rest are `pfOther n`. -/
inductive PixelFormat
  | invalid
  | fbf8BitYCbCr
  | fbf24BitBGR
  | pfOther (n : Nat)
deriving DecidableEq

/-- Modelled from the spec: `kDefaultAJAPixelFormat`, the default AJA pixel
format used for the HDMI YCbCr guess and as the test-pattern fallback (an
8-bit YCbCr format); its definition lives in a header outside `src/`. -/
def kDefaultAJAPixelFormat : PixelFormat := PixelFormat.fbf8BitYCbCr

/-- `IOSelection`: we single out the members the source logic branches on
(`Invalid`, `SDI1_2`, `SDI3_4` and their `Squares` variants). -/
inductive IOSelection
  | invalid
  | sdi1_2
  | sdi3_4
  | sdi1_2Squares
  | sdi3_4Squares
  | selOther (n : Nat)
deriving DecidableEq

/-- `NTV2InputSource`, classified by the `NTV2_INPUT_SOURCE_IS_SDI` /
`NTV2_INPUT_SOURCE_IS_HDMI` predicates, carrying its channel number. -/
inductive InputSource
  | sdi (chan : Nat)
  | hdmi (chan : Nat)
  | analog (chan : Nat)
deriving DecidableEq

/-- `NTV2InputSourceToChannel`. -/
def inputSourceChannel : InputSource → Nat
  | InputSource.sdi c => c
  | InputSource.hdmi c => c
  | InputSource.analog c => c

/-- `VPIDSampling`: the two values the resolver inspects, plus the rest. -/
inductive VPIDSampling
  | yuv422
  | gbr444
  | sampOther (n : Nat)
deriving DecidableEq

/-- A parsed VPID record (`VPIDData` after `SetA`/`SetB`/`Parse`). -/
structure VPIDData where
  vpidA : Nat
  vpidB : Nat
  sampling : VPIDSampling
deriving DecidableEq

/-- `NTV2LHIHDMIColorSpace` values the resolver branches on. -/
inductive HDMIColor
  | ycbcr
  | rgb
  | colorOther (n : Nat)
deriving DecidableEq

/-- `SDITransport` (settings value; `unknownTrx` models
`SDITransport::Unknown`, the auto sentinel result). -/
inductive SDITransport
  | unknownTrx
  | trx (n : Nat)
deriving DecidableEq

/-- `SDITransport4K`. -/
inductive SDITransport4K
  | squares
  | twoSampleInterleave
  | t4kOther (n : Nat)
deriving DecidableEq

/-- `SourceProps`: the negotiated configuration stored on the session.
Equality is structural (the comparison `want_props != GetSourceProps()`);
the `operator==` body lives in a header outside `src/`, so it is modelled
from the spec as value equality of the props. -/
structure SourceProps where
  deviceID : Nat
  ioSelect : IOSelection
  videoFormat : VideoFormat
  pixelFormat : PixelFormat
  sdiTransport : SDITransport
  sdi4kTransport : SDITransport4K
  vpids : List VPIDData
  deactivateWhileNotShowing : Bool
  autoDetect : Bool
deriving DecidableEq

/-! ## Observable events

Every call into the card (DMA, routing, channel control) and every emission
into the OBS sink is recorded as an event, so the theorems can speak about
what a code path does and does not do. -/

inductive Event
  | deactivate
  | activate
  | configureRoute
  | startAudio
  | acquireInput (io : IOSelection) (ok : Bool)
  | releaseInput (io : IOSelection) (ok : Bool)
  | scheduleUpdate
  | testPattern (vf : VideoFormat) (pf : PixelFormat) (width height : Nat)
  | videoFrame (vf : VideoFormat) (pf : PixelFormat) (bytes : Nat)
  | audioPacket (frames : Nat)
  | dmaAudio (addr bytes : Nat)
  | dmaFrame (frameIndex bytes : Nat)
  | enableChannel (chan : Nat)
  | sdiTransmitOff (chan : Nat)
  | waitVertical (chan : Nat)
  | setInputFrame (frameIndex : Nat)
deriving DecidableEq

/-- Events produced by the wire-format resolver's hardware probing. -/
def Event.isHwProbe : Event → Bool
  | Event.enableChannel _ => true
  | Event.sdiTransmitOff _ => true
  | Event.waitVertical _ => true
  | _ => false

/-- `true` exactly for test-pattern frame emissions. -/
def Event.isTestPattern : Event → Bool
  | Event.testPattern _ _ _ _ => true
  | _ => false

/-! ## Environment: card and NTV2 SDK oracles -/

/-- Responses of the card and of external SDK helpers, as oracle functions.
Per-channel reads are indexed by channel number, per-device ones by the
`NTV2DeviceID`. -/
structure CardEnv where
  /-- `aja::HandleSpecialCaseFormats(ioSelect, vf, deviceID)`. -/
  handleSpecialCaseFormats : IOSelection → VideoFormat → Nat → VideoFormat
  /-- `NTV2FormatDesc::GetTotalRasterBytes`. -/
  rasterBytes : VideoFormat → PixelFormat → Nat
  /-- `NTV2FormatDesc::GetRasterWidth`. -/
  rasterWidth : VideoFormat → PixelFormat → Nat
  /-- `NTV2FormatDesc::GetRasterHeight`. -/
  rasterHeight : VideoFormat → PixelFormat → Nat
  /-- `GetVideoWriteSize(vf, pf)`. -/
  videoWriteSize : VideoFormat → PixelFormat → Nat
  /-- `aja::IOSelectionToInputSources`. -/
  ioToInputSources : IOSelection → List InputSource
  /-- `NTV2DeviceHasBiDirectionalSDI(deviceID)`. -/
  hasBiDirectionalSDI : Nat → Bool
  /-- `NTV2DeviceGetHDMIVersion(deviceID)`. -/
  hdmiVersion : Nat → Nat
  /-- `GetHDMIInputColor` on a channel. -/
  hdmiInputColor : Nat → HDMIColor
  /-- `ReadSDIInVPID` + parse on a channel: `none` when the read fails. -/
  readVPID : Nat → Option VPIDData
  /-- `GetInputVideoFormat(src, is3GLevelB)`. -/
  inputVideoFormat : InputSource → Bool → VideoFormat
  /-- `aja::Is3GLevelB(card, channel)`. -/
  is3GLevelB : Nat → Bool
  /-- `aja::GetLevelAFormatForLevelBFormat`. -/
  levelAForLevelB : VideoFormat → VideoFormat
  /-- `NTV2_IS_4K_VIDEO_FORMAT`. -/
  is4K : VideoFormat → Bool
  /-- `SourceProps::Channel()`. -/
  channel : IOSelection → Nat

/-! ## Audio offsets (`struct AudioOffsets`, `ResetAudioBufferOffsets`) -/

/-- `struct AudioOffsets`. -/
structure AudioOffsets where
  currentAddress : Nat
  lastAddress : Nat
  readOffset : Nat
  wrapAddress : Nat
  bytesRead : Nat
deriving DecidableEq

/-- `ResetAudioBufferOffsets`: zero everything, re-read the hardware read
offset and wrap address, then `wrapAddress += readOffset` and
`lastAddress = readOffset`. -/
def resetAudioBufferOffsets (hwReadOffset hwWrapAddress : Nat) : AudioOffsets :=
  { currentAddress := 0
    lastAddress := hwReadOffset
    readOffset := hwReadOffset
    wrapAddress := add32 hwWrapAddress hwReadOffset
    bytesRead := 0 }

/-- `NTV2_AUDIOSIZE_MAX`, the audio buffer allocation made in
`aja_source_create`. -/
def ntv2AudioSizeMax : Nat := 401 * 1024

/-- The invariant of the offset tracker. -/
def offsetsWF (o : AudioOffsets) : Prop :=
  o.readOffset ≤ o.lastAddress ∧ o.lastAddress ≤ o.wrapAddress

instance (o : AudioOffsets) : Decidable (offsetsWF o) := by
  unfold offsetsWF; infer_instance

/-! ## One capture-loop iteration -/

/-- The hardware responses consumed by one iteration of the capture loop:
`capturing` is `IsCapturing()` at the top of the iteration, `modelFound`
is `GetModelName() != "(Not Found)"`, `rawInputFormat` is the
`GetInputVideoFormat` response, `levelB` the `aja::Is3GLevelB` response,
`audioLastIn` the `ReadAudioLastIn` value, and `hwReadOffset` /
`hwWrapAddress` the values a `ResetAudioBufferOffsets` in this iteration
would re-read. -/
structure IterInput where
  capturing : Bool
  modelFound : Bool
  rawInputFormat : VideoFormat
  levelB : Bool
  audioLastIn : Nat
  hwReadOffset : Nat
  hwWrapAddress : Nat
deriving DecidableEq

/-- Result of the audio section of one iteration. -/
structure AudioStepResult where
  offsets : AudioOffsets
  overrun : Bool
  events : List Event
deriving DecidableEq

/-- The audio section of one capture-loop iteration
(`aja-source.cpp` lines 258–337): read the hardware last-in address,
force DWORD alignment, rebase by the read offset, branch on wraparound,
detect overrun at any of the three places, DMA the span on non-overrun,
and emit one audio packet of `bytesRead / 32` frames. -/
def audioStep (i : IterInput) (audioBufferBytes : Nat) (o : AudioOffsets) :
    AudioStepResult :=
  let current := add32 (align4 i.audioLastIn) o.readOffset
  if current < o.lastAddress then
    -- wraparound branch
    let bytes1 := sub32 o.wrapAddress o.lastAddress
    let p1 : AudioOffsets × Bool :=
      if bytes1 > audioBufferBytes then
        (resetAudioBufferOffsets i.hwReadOffset i.hwWrapAddress, true)
      else
        ({ o with currentAddress := current, bytesRead := bytes1 }, false)
    let p2 : AudioOffsets × List Event :=
      if ¬ p1.2 then
        ({ p1.1 with bytesRead := add32 p1.1.bytesRead (sub32 current o.readOffset) },
         [Event.dmaAudio o.lastAddress bytes1,
          Event.dmaAudio o.readOffset (sub32 current o.readOffset)])
      else (p1.1, [])
    let p3 : AudioOffsets × Bool :=
      if p2.1.bytesRead > audioBufferBytes then
        (resetAudioBufferOffsets i.hwReadOffset i.hwWrapAddress, true)
      else (p2.1, p1.2)
    if p3.2 then
      { offsets := p3.1, overrun := true, events := p2.2 }
    else
      { offsets := { p3.1 with lastAddress := p3.1.currentAddress },
        overrun := false,
        events := p2.2 ++ [Event.audioPacket (p3.1.bytesRead / 32)] }
  else
    -- no wraparound
    let bytes1 := sub32 current o.lastAddress
    if bytes1 > audioBufferBytes then
      { offsets := resetAudioBufferOffsets i.hwReadOffset i.hwWrapAddress,
        overrun := true, events := [] }
    else
      { offsets :=
          { o with currentAddress := current, lastAddress := current,
                   bytesRead := bytes1 },
        overrun := false,
        events := [Event.dmaAudio o.lastAddress bytes1,
                   Event.audioPacket (bytes1 / 32)] }

/-! ## Test-pattern generation (`AJASource::GenerateTestPattern`) -/

/-- Result of `GenerateTestPattern`: the size of the retained pattern
buffer, whether `DrawTestPattern` ran, and the emitted frame (if any). -/
structure PatternResult where
  patternSize : Nat
  regenerated : Bool
  events : List Event
deriving DecidableEq

/-- The video format actually used by `GenerateTestPattern`: 720p59.94 is
substituted for `NTV2_FORMAT_UNKNOWN`. -/
def patternVideoFormat (vf : VideoFormat) : VideoFormat :=
  if vf = VideoFormat.unknown then VideoFormat.f720p5994 else vf

/-- The pixel format actually used by `GenerateTestPattern`: the default
AJA pixel format is substituted for `NTV2_FBF_INVALID`. -/
def patternPixelFormat (pf : PixelFormat) : PixelFormat :=
  if pf = PixelFormat.invalid then kDefaultAJAPixelFormat else pf

/-- `AJASource::GenerateTestPattern`: substitute 720p59.94 for an unknown
video format and the default AJA pixel format for an invalid pixel format,
regenerate the pattern buffer only when the total raster byte size differs
from the retained buffer's size, bail out (emitting nothing) when the
buffer is empty, and otherwise emit one frame sized to the raster. -/
def generateTestPattern (env : CardEnv) (vf : VideoFormat) (pf : PixelFormat)
    (patternSize : Nat) : PatternResult :=
  let vidFmt := patternVideoFormat vf
  let pixFmt := patternPixelFormat pf
  let bufSize := env.rasterBytes vidFmt pixFmt
  let regen := bufSize ≠ patternSize
  let newSize := if regen then bufSize else patternSize
  if newSize = 0 then
    { patternSize := newSize, regenerated := regen, events := [] }
  else
    { patternSize := newSize, regenerated := regen,
      events := [Event.testPattern vidFmt pixFmt
                   (env.rasterWidth vidFmt pixFmt)
                   (env.rasterHeight vidFmt pixFmt)] }

/-! ## The capture loop (`AJASource::CaptureThread`) -/

inductive Control
  | brk
  | cont
deriving DecidableEq

/-- The per-thread state threaded through the loop iterations. -/
structure LoopState where
  offsets : AudioOffsets
  currentCardFrame : Nat
  patternSize : Nat
deriving DecidableEq

structure IterResult where
  state : LoopState
  events : List Event
  control : Control
deriving DecidableEq

/-- One iteration of the `while (IsCapturing())` body
(`aja-source.cpp` lines 216–372): device-loss check, ping-pong flip,
live-format probe (placeholder frame and `continue` when unknown),
auto-detect format-change check (schedule `aja_source_update` and `break`),
audio section, then video DMA and frame emission. -/
def captureIter (env : CardEnv) (props : SourceProps)
    (audioBufferBytes videoBufferBytes : Nat) (i : IterInput)
    (s : LoopState) : IterResult :=
  if ¬ i.modelFound then
    { state := s, events := [Event.scheduleUpdate], control := Control.brk }
  else
    let videoFormat := props.videoFormat
    let pixelFormat := props.pixelFormat
    let flipped := s.currentCardFrame ^^^ 1
    if i.rawInputFormat = VideoFormat.unknown then
      let p := generateTestPattern env videoFormat pixelFormat s.patternSize
      { state := { s with currentCardFrame := flipped, patternSize := p.patternSize },
        events := p.events, control := Control.cont }
    else
      let newVideoFormat :=
        env.handleSpecialCaseFormats props.ioSelect i.rawInputFormat props.deviceID
      if props.autoDetect ∧ videoFormat ≠ newVideoFormat then
        { state := { s with currentCardFrame := flipped },
          events := [Event.scheduleUpdate], control := Control.brk }
      else
        let a := audioStep i audioBufferBytes s.offsets
        if videoBufferBytes = 0 then
          { state := { s with currentCardFrame := flipped, offsets := a.offsets },
            events := a.events, control := Control.cont }
        else
          let actualVideoFormat :=
            if i.levelB then env.levelAForLevelB videoFormat else videoFormat
          { state := { s with currentCardFrame := flipped, offsets := a.offsets },
            events := a.events ++
              [Event.dmaFrame flipped videoBufferBytes,
               Event.videoFrame actualVideoFormat pixelFormat videoBufferBytes,
               Event.setInputFrame flipped],
            control := Control.cont }

/-- The capture loop: run iterations from the input trace until the
capturing flag is observed false at the top of an iteration, an iteration
breaks, or the trace ends. -/
def captureLoop (env : CardEnv) (props : SourceProps)
    (audioBufferBytes videoBufferBytes : Nat) :
    List IterInput → LoopState → LoopState × List Event
  | [], s => (s, [])
  | i :: rest, s =>
    if i.capturing then
      let r := captureIter env props audioBufferBytes videoBufferBytes i s
      match r.control with
      | Control.brk => (r.state, r.events)
      | Control.cont =>
        let t := captureLoop env props audioBufferBytes videoBufferBytes rest r.state
        (t.1, r.events ++ t.2)
    else (s, [])

/-- Result of a whole capture-thread run, with the events emitted inside
the loop separated from those emitted after it exits. -/
structure ThreadResult where
  loopEvents : List Event
  postEvents : List Event
  finalState : LoopState
deriving DecidableEq

/-- `AJASource::CaptureThread` from the point the thread body starts:
reset the video buffer for the configured format, seed the ping-pong frame
index from the channel, reset the audio offsets, run the loop, and after
the loop exits emit a single black test pattern.  `initVideoBytes` and
`initPatternSize` are the buffer states inherited from before the thread
started; `hwReadOffset` / `hwWrapAddress` are the card's audio pointers at
thread start. -/
def captureThread (env : CardEnv) (props : SourceProps)
    (audioBufferBytes initVideoBytes initPatternSize : Nat)
    (hwReadOffset hwWrapAddress : Nat) (inputs : List IterInput) :
    ThreadResult :=
  let videoBufferBytes :=
    if props.videoFormat ≠ VideoFormat.unknown then
      env.videoWriteSize props.videoFormat props.pixelFormat
    else initVideoBytes
  let ch := env.channel props.ioSelect
  let frame0 := (ch * 2) ^^^ 1
  let s0 : LoopState :=
    { offsets := resetAudioBufferOffsets hwReadOffset hwWrapAddress,
      currentCardFrame := frame0, patternSize := initPatternSize }
  let t := captureLoop env props audioBufferBytes videoBufferBytes inputs s0
  let p := generateTestPattern env props.videoFormat props.pixelFormat t.1.patternSize
  { loopEvents := t.2, postEvents := p.events,
    finalState := { t.1 with patternSize := p.patternSize } }

/-! ## Wire-format resolution (`AJASource::ReadWireFormats`) -/

/-- Accumulator of the per-input-source probing loop. -/
structure RWFState where
  pf : PixelFormat
  vpids : List VPIDData
  events : List Event
deriving DecidableEq

/-- One pass of the probing loop in `ReadWireFormats`: enable the channel;
for SDI inputs disable transmit on bidirectional devices, wait one
vertical interval and collect the parsed VPID when the read succeeds; for
HDMI inputs wait one vertical interval and guess the pixel format from the
HDMI version and negotiated color space. -/
def probeInputSource (env : CardEnv) (deviceID : Nat) (src : InputSource)
    (st : RWFState) : RWFState :=
  let ch := inputSourceChannel src
  let st1 := { st with events := st.events ++ [Event.enableChannel ch] }
  match src with
  | InputSource.sdi _ =>
    let st2 :=
      if env.hasBiDirectionalSDI deviceID then
        { st1 with events := st1.events ++ [Event.sdiTransmitOff ch] }
      else st1
    let st3 := { st2 with events := st2.events ++ [Event.waitVertical ch] }
    match env.readVPID ch with
    | some v => { st3 with vpids := st3.vpids ++ [v] }
    | none => st3
  | InputSource.hdmi _ =>
    let st2 := { st1 with events := st1.events ++ [Event.waitVertical ch] }
    if env.hdmiVersion deviceID = 1 then
      { st2 with pf := kDefaultAJAPixelFormat }
    else
      match env.hdmiInputColor ch with
      | HDMIColor.ycbcr => { st2 with pf := kDefaultAJAPixelFormat }
      | HDMIColor.rgb => { st2 with pf := PixelFormat.fbf24BitBGR }
      | HDMIColor.colorOther _ => st2
  | InputSource.analog _ => st1

structure RWFResult where
  ok : Bool
  vf : VideoFormat
  pf : PixelFormat
  vpids : List VPIDData
  events : List Event
deriving DecidableEq

/-- `AJASource::ReadWireFormats`: map the selection to input sources
(failing fast when the set is empty), probe every source, wait once more
on the first source's channel, read the raw video format, override the
pixel format from the first collected VPID record when the first source is
SDI, and apply the special-case format remapping. -/
def readWireFormats (env : CardEnv) (deviceID : Nat) (ioSel : IOSelection)
    (vf0 : VideoFormat) (pf0 : PixelFormat) (vpids0 : List VPIDData) :
    RWFResult :=
  let srcs := env.ioToInputSources ioSel
  match srcs with
  | [] => { ok := false, vf := vf0, pf := pf0, vpids := vpids0, events := [] }
  | initial :: _ =>
    let st0 : RWFState := { pf := pf0, vpids := vpids0, events := [] }
    let st := srcs.foldl (fun acc src => probeInputSource env deviceID src acc) st0
    let initialChannel := inputSourceChannel initial
    let evs := st.events ++ [Event.waitVertical initialChannel]
    let vf1 := env.inputVideoFormat initial (env.is3GLevelB initialChannel)
    let pf1 :=
      match initial, st.vpids with
      | InputSource.sdi _, v :: _ =>
        if v.sampling = VPIDSampling.yuv422 then PixelFormat.fbf8BitYCbCr
        else if v.sampling = VPIDSampling.gbr444 then PixelFormat.fbf24BitBGR
        else st.pf
      | _, _ => st.pf
    let vf2 := env.handleSpecialCaseFormats ioSel vf1 deviceID
    { ok := true, vf := vf2, pf := pf1, vpids := st.vpids, events := evs }

/-! ## The update entry point (`aja_source_update`) -/

/-- The settings read at the top of `aja_source_update`; `none` in a
select field models the `kAutoDetect` sentinel. -/
structure Settings where
  ioSelect : IOSelection
  vfSelect : Option VideoFormat
  pfSelect : Option PixelFormat
  sdiTrxSelect : Option Nat
  sdi4kSelect : SDITransport4K
  deactivateWhileNotShowing : Bool
  wantCardID : Nat
deriving DecidableEq

/-- The session state `aja_source_update` reads and writes: the stored
card ID, the stored `SourceProps`, and the function-static `initialized`
flag. -/
structure SessionState where
  cardID : Nat
  props : SourceProps
  initialized : Bool
deriving DecidableEq

/-- Oracles consumed by `aja_source_update` beyond the card itself. -/
structure UpdateEnv where
  cardEnv : CardEnv
  /-- `CardManager::GetCardEntry` success, by card ID. -/
  cardEntryFound : Nat → Bool
  /-- `card->IsOpen()`. -/
  cardOpen : Bool
  /-- `card->GetModelName() != "(Not Found)"`. -/
  cardModelFound : Bool
  /-- `card->GetDeviceID()`. -/
  cardDeviceID : Nat
  /-- `ReleaseInputSelection` success, by selection. -/
  releaseOk : IOSelection → Bool
  /-- `AcquireInputSelection` success, by selection. -/
  acquireOk : IOSelection → Bool

inductive UpdateOutcome
  | noCardEntry
  | cardNotOpen
  | cardNotFound
  | invalidSelection
  | acquireFailed
  | rwfFailed
  | invalidFormat
  | completed
deriving DecidableEq

structure UpdateResult where
  outcome : UpdateOutcome
  events : List Event
  state : SessionState
  /-- The fully derived `want_props` (after auto-detect fill-in), when the
  call got that far. -/
  derived : Option SourceProps
  /-- The selection acquired by this call, when the acquire succeeded. -/
  acquired : Option IOSelection
deriving DecidableEq

/-- The wanted video format read from the settings (`kAutoDetect` maps to
`NTV2_FORMAT_UNKNOWN`). -/
def wantVideoFormat (settings : Settings) : VideoFormat :=
  match settings.vfSelect with
  | none => VideoFormat.unknown
  | some v => v

/-- The wanted pixel format read from the settings (`kAutoDetect` maps to
`NTV2_FBF_INVALID`). -/
def wantPixelFormat (settings : Settings) : PixelFormat :=
  match settings.pfSelect with
  | none => PixelFormat.invalid
  | some p => p

/-- The wanted SDI transport read from the settings (`kAutoDetect` maps
to `SDITransport::Unknown`). -/
def wantTransport (settings : Settings) : SDITransport :=
  match settings.sdiTrxSelect with
  | none => SDITransport.unknownTrx
  | some t => SDITransport.trx t

/-- The video format after the auto-detect fill-in (line 1006). -/
def resolvedVideoFormat (settings : Settings) (r : RWFResult) : VideoFormat :=
  if settings.vfSelect.isNone then r.vf else wantVideoFormat settings

/-- The pixel format after the auto-detect fill-in (line 1008). -/
def resolvedPixelFormat (settings : Settings) (r : RWFResult) : PixelFormat :=
  if settings.pfSelect.isNone then r.pf else wantPixelFormat settings

/-- The fully derived `want_props` at the teardown decision. -/
def derivedProps (env : UpdateEnv) (settings : Settings)
    (wantIo : IOSelection) (r : RWFResult) : SourceProps :=
  { deviceID := env.cardDeviceID, ioSelect := wantIo,
    videoFormat := resolvedVideoFormat settings r,
    pixelFormat := resolvedPixelFormat settings r,
    sdiTransport := wantTransport settings,
    sdi4kTransport := settings.sdi4kSelect,
    vpids := r.vpids,
    deactivateWhileNotShowing := settings.deactivateWhileNotShowing,
    autoDetect := settings.vfSelect.isNone || settings.pfSelect.isNone }

/-- The tail of `aja_source_update` after the input selection has been
acquired (`aja-source.cpp` lines 992–1036): resolve wire formats with the
VPID list cleared; on failure release the acquired selection and abort;
fill in auto-detected formats; on unknown/invalid formats release and
abort; otherwise tear down and re-route iff the static flag is clear or
the derived props differ from the stored ones, then store the props,
start audio and activate. -/
def updateFinish (env : UpdateEnv) (settings : Settings) (st2 : SessionState)
    (evs2 : List Event) (wantIo : IOSelection) : UpdateResult :=
  let r := readWireFormats env.cardEnv env.cardDeviceID wantIo
    (wantVideoFormat settings) (wantPixelFormat settings) []
  let evs3 := evs2 ++ r.events
  if ¬ r.ok then
    { outcome := UpdateOutcome.rwfFailed,
      events := evs3 ++ [Event.releaseInput wantIo (env.releaseOk wantIo)],
      state := st2, derived := none, acquired := some wantIo }
  else
    let wantProps := derivedProps env settings wantIo r
    if resolvedVideoFormat settings r = VideoFormat.unknown ∨
        resolvedPixelFormat settings r = PixelFormat.invalid then
      { outcome := UpdateOutcome.invalidFormat,
        events := evs3 ++ [Event.releaseInput wantIo (env.releaseOk wantIo)],
        state := st2, derived := some wantProps, acquired := some wantIo }
    else
      let fire := ¬ st2.initialized ∨ wantProps ≠ st2.props
      let evs4 :=
        if fire then evs3 ++ [Event.configureRoute, Event.deactivate]
        else evs3
      let st3 := if fire then { st2 with initialized := true } else st2
      { outcome := UpdateOutcome.completed,
        events := evs4 ++ [Event.startAudio, Event.activate],
        state := { st3 with props := wantProps },
        derived := some wantProps, acquired := some wantIo }

/-- The card-change handling of `aja_source_update` (lines 873–877 and
904–926): on a card-ID change, clear the static flag, deactivate, and
release the previous card's selection when its entry still exists —
invalidating the selection on a successful release.  Returns the session
state, the emitted events, and the effective selection. -/
def updateCardChange (env : UpdateEnv) (settings : Settings)
    (st : SessionState) : SessionState × List Event × IOSelection :=
  let cardChanged := settings.wantCardID ≠ st.cardID
  let st1 := if cardChanged then { st with initialized := false } else st
  let evs0 : List Event := if cardChanged then [Event.deactivate] else []
  if cardChanged ∧ env.cardEntryFound st.cardID then
    if env.releaseOk st.props.ioSelect then
      ({ st1 with cardID := settings.wantCardID },
       evs0 ++ [Event.releaseInput st.props.ioSelect true],
       IOSelection.invalid)
    else
      (st1, evs0 ++ [Event.releaseInput st.props.ioSelect false],
       settings.ioSelect)
  else (st1, evs0, settings.ioSelect)

/-- The 4K-squares remap of the input selection (lines 956–963). -/
def wantIOSelection (env : UpdateEnv) (settings : Settings)
    (io1 : IOSelection) : IOSelection :=
  if env.cardEnv.is4K (wantVideoFormat settings) ∧
      settings.sdi4kSelect = SDITransport4K.squares then
    if io1 = IOSelection.sdi1_2 then IOSelection.sdi1_2Squares
    else if io1 = IOSelection.sdi3_4 then IOSelection.sdi3_4Squares
    else io1
  else io1

/-- `aja_source_update` (`aja-source.cpp` lines 847–1036): read settings;
on a card-ID change clear the static `initialized` flag and deactivate;
look up and validate the card; release the previous card's selection on a
card change (invalidating the selection on success); abort on an invalid
selection; build the wanted selection (with the 4K-squares remap); release
the old selection when it changed; acquire the new selection; then finish
through `updateFinish`. -/
def ajaSourceUpdate (env : UpdateEnv) (settings : Settings)
    (st : SessionState) : UpdateResult :=
  let cardChanged := settings.wantCardID ≠ st.cardID
  let st1 := if cardChanged then { st with initialized := false } else st
  let evs0 : List Event := if cardChanged then [Event.deactivate] else []
  if ¬ env.cardEntryFound settings.wantCardID then
    { outcome := UpdateOutcome.noCardEntry, events := evs0, state := st1,
      derived := none, acquired := none }
  else if ¬ env.cardOpen then
    { outcome := UpdateOutcome.cardNotOpen, events := evs0, state := st1,
      derived := none, acquired := none }
  else if ¬ env.cardModelFound then
    { outcome := UpdateOutcome.cardNotFound, events := evs0, state := st1,
      derived := none, acquired := none }
  else
    -- release Channels from previous card if card ID changed
    let prev := updateCardChange env settings st
    if prev.2.2 = IOSelection.invalid then
      { outcome := UpdateOutcome.invalidSelection, events := prev.2.1,
        state := prev.1, derived := none, acquired := none }
    else
      let st2 := { prev.1 with cardID := settings.wantCardID }
      let wantIo := wantIOSelection env settings prev.2.2
      -- release Channels if IOSelection changes
      let evs1 :=
        if wantIo ≠ st.props.ioSelect then
          prev.2.1 ++ [Event.releaseInput st.props.ioSelect
                         (env.releaseOk st.props.ioSelect)]
        else prev.2.1
      if ¬ env.acquireOk wantIo then
        { outcome := UpdateOutcome.acquireFailed,
          events := evs1 ++ [Event.acquireInput wantIo false],
          state := st2, derived := none, acquired := none }
      else
        updateFinish env settings st2
          (evs1 ++ [Event.acquireInput wantIo true]) wantIo

/-! ## Concrete instances used to exercise the model -/

/-- A small concrete card environment used to evaluate the model on
closed inputs. -/
def testEnv : CardEnv :=
  { handleSpecialCaseFormats := fun _ v _ => v
    rasterBytes := fun _ _ => 64
    rasterWidth := fun _ _ => 8
    rasterHeight := fun _ _ => 4
    videoWriteSize := fun _ _ => 64
    ioToInputSources := fun io =>
      match io with
      | IOSelection.sdi1_2 => [InputSource.sdi 0, InputSource.sdi 1]
      | IOSelection.sdi3_4 => [InputSource.sdi 0]
      | _ => []
    hasBiDirectionalSDI := fun _ => false
    hdmiVersion := fun _ => 2
    hdmiInputColor := fun _ => HDMIColor.ycbcr
    readVPID := fun ch =>
      if ch = 0 then some { vpidA := 0, vpidB := 0, sampling := VPIDSampling.sampOther 0 }
      else some { vpidA := 0, vpidB := 0, sampling := VPIDSampling.yuv422 }
    inputVideoFormat := fun _ _ => VideoFormat.other 5
    is3GLevelB := fun _ => false
    levelAForLevelB := fun v => v
    is4K := fun _ => false
    channel := fun _ => 0 }

/-- `testEnv` with every SDI channel carrying a 4:2:2 VPID. -/
def testEnv422 : CardEnv :=
  { testEnv with
    readVPID := fun _ =>
      some { vpidA := 0, vpidB := 0, sampling := VPIDSampling.yuv422 } }

/-- Concrete session props for exercising the update path. -/
def testProps : SourceProps :=
  { deviceID := 0
    ioSelect := IOSelection.invalid
    videoFormat := VideoFormat.unknown
    pixelFormat := PixelFormat.invalid
    sdiTransport := SDITransport.unknownTrx
    sdi4kTransport := SDITransport4K.twoSampleInterleave
    vpids := []
    deactivateWhileNotShowing := false
    autoDetect := false }

/-- `testProps` with auto-detect on and a configured format that differs
from the live one. -/
def autoProps : SourceProps :=
  { testProps with autoDetect := true, videoFormat := VideoFormat.other 1 }

/-- Concrete update environment. -/
def updEnv : UpdateEnv :=
  { cardEnv := testEnv
    cardEntryFound := fun _ => true
    cardOpen := true
    cardModelFound := true
    cardDeviceID := 0
    releaseOk := fun _ => true
    acquireOk := fun _ => true }

/-- Concrete settings that drive a completed update. -/
def updSettings : Settings :=
  { ioSelect := IOSelection.sdi3_4
    vfSelect := some (VideoFormat.other 5)
    pfSelect := some PixelFormat.fbf8BitYCbCr
    sdiTrxSelect := none
    sdi4kSelect := SDITransport4K.twoSampleInterleave
    deactivateWhileNotShowing := false
    wantCardID := 1 }

/-- Concrete settings whose selection resolves to zero input sources. -/
def updSettingsNoSources : Settings :=
  { updSettings with ioSelect := IOSelection.selOther 3 }

/-- Concrete session state. -/
def updState : SessionState :=
  { cardID := 1, props := testProps, initialized := false }

/-! ## Conclusions of the update-path claims

Stated as named predicates so the closed witnesses can restate them
compactly. -/

/-- The condition the source uses at the teardown decision: the static
`initialized` flag is clear at the decision point (it is cleared when the
card ID changes), or the freshly derived props differ from the stored
ones. -/
def teardownTrigger (settings : Settings) (st : SessionState)
    (r : UpdateResult) : Prop :=
  ¬ (st.initialized = true ∧ settings.wantCardID = st.cardID) ∨
    r.derived ≠ some st.props

/-- Conclusion of claim C3 for a completed `aja_source_update` call:
teardown-plus-rerouting happens exactly when the trigger holds, and when
it does not hold neither a deactivation nor a re-route occurs. -/
def updateTeardownConcl (env : UpdateEnv) (settings : Settings)
    (st : SessionState) : Prop :=
  ((Event.configureRoute ∈ (ajaSourceUpdate env settings st).events ∧
      Event.deactivate ∈ (ajaSourceUpdate env settings st).events) ↔
    teardownTrigger settings st (ajaSourceUpdate env settings st)) ∧
  (¬ teardownTrigger settings st (ajaSourceUpdate env settings st) →
    Event.configureRoute ∉ (ajaSourceUpdate env settings st).events ∧
    Event.deactivate ∉ (ajaSourceUpdate env settings st).events)

/-- Conclusion of claim C5 for an aborted `aja_source_update` call: the
stored props are untouched, the thread is not activated, and the acquired
input selection is released again. -/
def updateAbortConcl (env : UpdateEnv) (settings : Settings)
    (st : SessionState) : Prop :=
  (ajaSourceUpdate env settings st).state.props = st.props ∧
  Event.activate ∉ (ajaSourceUpdate env settings st).events ∧
  ∃ io, (ajaSourceUpdate env settings st).acquired = some io ∧
    Event.acquireInput io true ∈ (ajaSourceUpdate env settings st).events ∧
    Event.releaseInput io (env.releaseOk io) ∈ (ajaSourceUpdate env settings st).events

/-! # Theorems -/

/-! ## Arithmetic helpers -/

theorem w32_eq : w32 = 4294967296 := by norm_num [w32]

theorem add32_eq (a b : Nat) (h : a + b < w32) : add32 a b = a + b := by
  simp only [add32]
  exact Nat.mod_eq_of_lt h

theorem sub32_eq (a b : Nat) (hb : b ≤ a) (ha : a < w32) : sub32 a b = a - b := by
  simp only [sub32, w32_eq] at *
  omega

theorem align4_le (a : Nat) : align4 a ≤ a := by
  simp only [align4]
  omega

/-! ## Test-pattern helpers -/

theorem patternVideoFormat_ne_unknown (vf : VideoFormat) :
    patternVideoFormat vf ≠ VideoFormat.unknown := by
  unfold patternVideoFormat
  split <;> simp_all

theorem patternPixelFormat_ne_invalid (pf : PixelFormat) :
    patternPixelFormat pf ≠ PixelFormat.invalid := by
  unfold patternPixelFormat kDefaultAJAPixelFormat
  split <;> simp_all

theorem generateTestPattern_events (env : CardEnv) (vf : VideoFormat)
    (pf : PixelFormat) (patternSize : Nat)
    (hpos : 0 < env.rasterBytes (patternVideoFormat vf) (patternPixelFormat pf)) :
    (generateTestPattern env vf pf patternSize).events =
      [Event.testPattern (patternVideoFormat vf) (patternPixelFormat pf)
        (env.rasterWidth (patternVideoFormat vf) (patternPixelFormat pf))
        (env.rasterHeight (patternVideoFormat vf) (patternPixelFormat pf))] := by
  unfold generateTestPattern
  by_cases hr : env.rasterBytes (patternVideoFormat vf) (patternPixelFormat pf) = patternSize
  · simp only [hr]
    simp only [ne_eq, not_true_eq_false, if_false, ite_self]
    rw [if_neg]
    omega
  · simp only [ne_eq, hr, not_false_eq_true, if_true]
    rw [if_neg]
    omega

/-- Claim C9: an input selection mapping to zero physical input connectors
makes `ReadWireFormats` fail fast: it returns failure without probing any
hardware channel and leaves the video format, pixel format and VPID list
outputs untouched. -/
theorem c9_empty_selection_fails_fast (env : CardEnv) (deviceID : Nat)
    (ioSel : IOSelection) (vf0 : VideoFormat) (pf0 : PixelFormat)
    (vpids0 : List VPIDData) (h : env.ioToInputSources ioSel = []) :
    readWireFormats env deviceID ioSel vf0 pf0 vpids0 =
      { ok := false, vf := vf0, pf := pf0, vpids := vpids0, events := [] } := by
  unfold readWireFormats
  rw [h]

/-- Witness for C9 at a concrete environment and selection. -/
theorem c9_empty_selection_fails_fast_witness :
    testEnv.ioToInputSources (IOSelection.selOther 3) = [] ∧
    readWireFormats testEnv 0 (IOSelection.selOther 3) (VideoFormat.other 7)
        (PixelFormat.pfOther 9) [] =
      { ok := false, vf := VideoFormat.other 7, pf := PixelFormat.pfOther 9,
        vpids := [], events := [] } :=
  ⟨by decide,
   c9_empty_selection_fails_fast testEnv 0 (IOSelection.selOther 3)
     (VideoFormat.other 7) (PixelFormat.pfOther 9) [] (by decide)⟩

/-- Claim C10: the test-pattern generator substitutes 720p59.94 for an
unknown video format and the default AJA pixel format for an invalid pixel
format, so (whenever the raster geometry of valid formats is nonempty)
every placeholder emission is a single well-formed frame with nonzero
dimensions; the pattern buffer is regenerated only when the total raster
byte size changes. -/
theorem c10_test_pattern_fallbacks (env : CardEnv) (vf : VideoFormat)
    (pf : PixelFormat) (patternSize : Nat)
    (hpos : ∀ v p, v ≠ VideoFormat.unknown → p ≠ PixelFormat.invalid →
      0 < env.rasterBytes v p ∧ 0 < env.rasterWidth v p ∧
        0 < env.rasterHeight v p) :
    (generateTestPattern env vf pf patternSize).events =
      [Event.testPattern (patternVideoFormat vf) (patternPixelFormat pf)
        (env.rasterWidth (patternVideoFormat vf) (patternPixelFormat pf))
        (env.rasterHeight (patternVideoFormat vf) (patternPixelFormat pf))] ∧
    0 < env.rasterWidth (patternVideoFormat vf) (patternPixelFormat pf) ∧
    0 < env.rasterHeight (patternVideoFormat vf) (patternPixelFormat pf) ∧
    ((generateTestPattern env vf pf patternSize).regenerated = true ↔
      env.rasterBytes (patternVideoFormat vf) (patternPixelFormat pf) ≠
        patternSize) := by
  obtain ⟨hb, hw, hh⟩ := hpos (patternVideoFormat vf) (patternPixelFormat pf)
    (patternVideoFormat_ne_unknown vf) (patternPixelFormat_ne_invalid pf)
  refine ⟨generateTestPattern_events env vf pf patternSize hb, hw, hh, ?_⟩
  unfold generateTestPattern
  by_cases hr : env.rasterBytes (patternVideoFormat vf) (patternPixelFormat pf) = patternSize
  · simp only [hr, ne_eq, not_true_eq_false, if_false, ite_self]
    split <;> simp_all
  · simp only [ne_eq, hr, not_false_eq_true, if_true]
    split <;> simp_all

/-- Witness for C10 at a concrete environment. -/
theorem c10_test_pattern_fallbacks_witness :
    (∀ v p, v ≠ VideoFormat.unknown → p ≠ PixelFormat.invalid →
      0 < testEnv.rasterBytes v p ∧ 0 < testEnv.rasterWidth v p ∧
        0 < testEnv.rasterHeight v p) ∧
    ((generateTestPattern testEnv VideoFormat.unknown PixelFormat.invalid 0).events =
      [Event.testPattern (patternVideoFormat VideoFormat.unknown)
        (patternPixelFormat PixelFormat.invalid)
        (testEnv.rasterWidth (patternVideoFormat VideoFormat.unknown)
          (patternPixelFormat PixelFormat.invalid))
        (testEnv.rasterHeight (patternVideoFormat VideoFormat.unknown)
          (patternPixelFormat PixelFormat.invalid))] ∧
    0 < testEnv.rasterWidth (patternVideoFormat VideoFormat.unknown)
        (patternPixelFormat PixelFormat.invalid) ∧
    0 < testEnv.rasterHeight (patternVideoFormat VideoFormat.unknown)
        (patternPixelFormat PixelFormat.invalid) ∧
    ((generateTestPattern testEnv VideoFormat.unknown PixelFormat.invalid 0).regenerated = true ↔
      testEnv.rasterBytes (patternVideoFormat VideoFormat.unknown)
        (patternPixelFormat PixelFormat.invalid) ≠ 0)) :=
  ⟨by intro v p _ _; refine ⟨?_, ?_, ?_⟩ <;> norm_num [testEnv],
   c10_test_pattern_fallbacks testEnv VideoFormat.unknown PixelFormat.invalid 0
     (by intro v p _ _; refine ⟨?_, ?_, ?_⟩ <;> norm_num [testEnv])⟩

/-- Claim C7: whenever the capture loop terminates — by deactivation
(`capturing` observed false), by device loss, or by a detected format
change — exactly one black test-pattern frame is emitted after the loop
exits.  The trace `inputs` is universally quantified, so every way the
loop can stop is covered; the post-loop events are exactly one
test-pattern emission. -/
theorem c7_single_pattern_after_loop (env : CardEnv) (props : SourceProps)
    (audioBufferBytes initVideoBytes initPatternSize hwReadOffset hwWrapAddress : Nat)
    (inputs : List IterInput)
    (hpos : 0 < env.rasterBytes (patternVideoFormat props.videoFormat)
      (patternPixelFormat props.pixelFormat)) :
    (captureThread env props audioBufferBytes initVideoBytes initPatternSize
        hwReadOffset hwWrapAddress inputs).postEvents =
      [Event.testPattern (patternVideoFormat props.videoFormat)
        (patternPixelFormat props.pixelFormat)
        (env.rasterWidth (patternVideoFormat props.videoFormat)
          (patternPixelFormat props.pixelFormat))
        (env.rasterHeight (patternVideoFormat props.videoFormat)
          (patternPixelFormat props.pixelFormat))] := by
  unfold captureThread
  simp only []
  exact generateTestPattern_events env props.videoFormat props.pixelFormat _ hpos

/-- Witness for C7: a concrete trace that hits the device-loss break. -/
theorem c7_single_pattern_after_loop_witness :
    0 < testEnv.rasterBytes (patternVideoFormat testProps.videoFormat)
      (patternPixelFormat testProps.pixelFormat) ∧
    (captureThread testEnv testProps ntv2AudioSizeMax 0 0 0 64
        [{ capturing := true, modelFound := false,
           rawInputFormat := VideoFormat.other 5, levelB := false,
           audioLastIn := 0, hwReadOffset := 0, hwWrapAddress := 64 }]).postEvents =
      [Event.testPattern (patternVideoFormat testProps.videoFormat)
        (patternPixelFormat testProps.pixelFormat)
        (testEnv.rasterWidth (patternVideoFormat testProps.videoFormat)
          (patternPixelFormat testProps.pixelFormat))
        (testEnv.rasterHeight (patternVideoFormat testProps.videoFormat)
          (patternPixelFormat testProps.pixelFormat))] :=
  ⟨by decide,
   c7_single_pattern_after_loop testEnv testProps ntv2AudioSizeMax 0 0 0 64 _
     (by decide)⟩

/-- Counterexample to claim C6 as stated: over an SDI selection with two
probed connectors, the second VPID record indicates 4:2:2 sampling, yet
the resolved pixel format is not overridden to 8-bit YCbCr — the code
inspects only the *first* record (`*vpids.begin()`). -/
theorem c6_counterexample :
    (∃ v ∈ (readWireFormats testEnv 0 IOSelection.sdi1_2 (VideoFormat.other 7)
      (PixelFormat.pfOther 9) []).vpids, v.sampling = VPIDSampling.yuv422) ∧
    (readWireFormats testEnv 0 IOSelection.sdi1_2 (VideoFormat.other 7)
      (PixelFormat.pfOther 9) []).pf ≠ PixelFormat.fbf8BitYCbCr := by
  decide

/-- Claim C6 (amended): in wire-format resolution over an SDI input
selection, if the *first* parsed VPID record indicates 4:2:2 sampling the
resolved pixel format is 8-bit YCbCr, and if it indicates 4:4:4 GBR
sampling it is 24-bit BGR, regardless of any HDMI-negotiated pixel-format
guess accumulated beforehand. -/
theorem c6_first_vpid_overrides (env : CardEnv) (deviceID : Nat)
    (ioSel : IOSelection) (vf0 : VideoFormat) (pf0 : PixelFormat)
    (vpids0 : List VPIDData) (c : Nat) (rest : List InputSource)
    (hsrcs : env.ioToInputSources ioSel = InputSource.sdi c :: rest)
    (v : VPIDData) (tail : List VPIDData)
    (hv : (readWireFormats env deviceID ioSel vf0 pf0 vpids0).vpids = v :: tail) :
    (v.sampling = VPIDSampling.yuv422 →
      (readWireFormats env deviceID ioSel vf0 pf0 vpids0).pf =
        PixelFormat.fbf8BitYCbCr) ∧
    (v.sampling = VPIDSampling.gbr444 →
      (readWireFormats env deviceID ioSel vf0 pf0 vpids0).pf =
        PixelFormat.fbf24BitBGR) := by
  unfold readWireFormats at hv ⊢
  rw [hsrcs] at hv ⊢
  simp only [] at hv ⊢
  rw [hv]
  constructor
  · intro hs
    simp [hs]
  · intro hs
    simp [hs]

/-- Witness for the amended C6 at a concrete environment whose first VPID
record carries 4:2:2 sampling. -/
theorem c6_first_vpid_overrides_witness :
    testEnv422.ioToInputSources IOSelection.sdi1_2 =
      InputSource.sdi 0 :: [InputSource.sdi 1] ∧
    (readWireFormats testEnv422 0 IOSelection.sdi1_2 (VideoFormat.other 7)
        (PixelFormat.pfOther 9) []).vpids =
      { vpidA := 0, vpidB := 0, sampling := VPIDSampling.yuv422 } ::
        [{ vpidA := 0, vpidB := 0, sampling := VPIDSampling.yuv422 }] ∧
    (({ vpidA := 0, vpidB := 0, sampling := VPIDSampling.yuv422 } :
        VPIDData).sampling = VPIDSampling.yuv422 →
      (readWireFormats testEnv422 0 IOSelection.sdi1_2 (VideoFormat.other 7)
        (PixelFormat.pfOther 9) []).pf = PixelFormat.fbf8BitYCbCr) ∧
    (({ vpidA := 0, vpidB := 0, sampling := VPIDSampling.yuv422 } :
        VPIDData).sampling = VPIDSampling.gbr444 →
      (readWireFormats testEnv422 0 IOSelection.sdi1_2 (VideoFormat.other 7)
        (PixelFormat.pfOther 9) []).pf = PixelFormat.fbf24BitBGR) :=
  ⟨by decide, by decide,
   c6_first_vpid_overrides testEnv422 0 IOSelection.sdi1_2 (VideoFormat.other 7)
     (PixelFormat.pfOther 9) [] 0 [InputSource.sdi 1] (by decide)
     { vpidA := 0, vpidB := 0, sampling := VPIDSampling.yuv422 }
     [{ vpidA := 0, vpidB := 0, sampling := VPIDSampling.yuv422 }] (by decide)⟩

/-! ## Audio-section helpers -/

theorem audioStep_overrun (i : IterInput) (audioBufferBytes : Nat)
    (o : AudioOffsets)
    (h : (audioStep i audioBufferBytes o).overrun = true) :
    (audioStep i audioBufferBytes o).offsets =
      resetAudioBufferOffsets i.hwReadOffset i.hwWrapAddress ∧
    ∀ n, Event.audioPacket n ∉ (audioStep i audioBufferBytes o).events := by
  simp only [audioStep] at h ⊢
  split_ifs at h ⊢ <;> simp_all

/-- Claim C1: in a capture-loop iteration that reaches the audio section,
a detected overrun (at any of the three detection places, i.e. whenever
the step reports `overrun`) resets the offsets to the hardware's current
read/wrap pointers, emits no audio unit in that iteration, and does not
terminate the loop. -/
theorem c1_overrun_resets_and_skips (env : CardEnv) (props : SourceProps)
    (audioBufferBytes videoBufferBytes : Nat) (i : IterInput) (s : LoopState)
    (hm : i.modelFound = true)
    (hraw : i.rawInputFormat ≠ VideoFormat.unknown)
    (hnc : ¬ (props.autoDetect = true ∧ props.videoFormat ≠
      env.handleSpecialCaseFormats props.ioSelect i.rawInputFormat props.deviceID))
    (hover : (audioStep i audioBufferBytes s.offsets).overrun = true) :
    (captureIter env props audioBufferBytes videoBufferBytes i s).control =
      Control.cont ∧
    (captureIter env props audioBufferBytes videoBufferBytes i s).state.offsets =
      resetAudioBufferOffsets i.hwReadOffset i.hwWrapAddress ∧
    ∀ n, Event.audioPacket n ∉
      (captureIter env props audioBufferBytes videoBufferBytes i s).events := by
  obtain ⟨hoff, hpkt⟩ := audioStep_overrun i audioBufferBytes s.offsets hover
  simp only [captureIter, hm, not_true_eq_false, if_false, hraw, ite_false]
  rw [if_neg hnc]
  by_cases hvb : videoBufferBytes = 0
  · simp only [hvb, if_pos rfl]
    exact ⟨rfl, hoff, hpkt⟩
  · rw [if_neg hvb]
    refine ⟨rfl, hoff, ?_⟩
    intro n hn
    simp only [List.mem_append, List.mem_cons, List.not_mem_nil, or_false] at hn
    rcases hn with hn | hn | hn | hn
    · exact hpkt n hn
    · exact Event.noConfusion hn
    · exact Event.noConfusion hn
    · exact Event.noConfusion hn

/-- Concrete iteration input and state used by the audio witnesses. -/
def overrunIter : IterInput :=
  { capturing := true, modelFound := true,
    rawInputFormat := VideoFormat.other 5, levelB := false,
    audioLastIn := 40, hwReadOffset := 100, hwWrapAddress := 900 }

/-- Concrete offsets mid-stream, well-formed, about to wrap. -/
def midOffsets : AudioOffsets :=
  { currentAddress := 0, lastAddress := 500, readOffset := 100,
    wrapAddress := 1000, bytesRead := 0 }

/-- Concrete loop state holding `midOffsets`. -/
def midState : LoopState :=
  { offsets := midOffsets, currentCardFrame := 1, patternSize := 0 }

/-- Witness for C1: a concrete iteration in which the wrapped span
(500 bytes) exceeds a 100-byte audio buffer. -/
theorem c1_overrun_resets_and_skips_witness :
    overrunIter.modelFound = true ∧
    overrunIter.rawInputFormat ≠ VideoFormat.unknown ∧
    ¬ (testProps.autoDetect = true ∧ testProps.videoFormat ≠
      testEnv.handleSpecialCaseFormats testProps.ioSelect
        overrunIter.rawInputFormat testProps.deviceID) ∧
    (audioStep overrunIter 100 midState.offsets).overrun = true ∧
    ((captureIter testEnv testProps 100 64 overrunIter midState).control =
      Control.cont ∧
    (captureIter testEnv testProps 100 64 overrunIter midState).state.offsets =
      resetAudioBufferOffsets overrunIter.hwReadOffset overrunIter.hwWrapAddress ∧
    ∀ n, Event.audioPacket n ∉
      (captureIter testEnv testProps 100 64 overrunIter midState).events) :=
  ⟨by decide, by decide, by decide, by decide,
   c1_overrun_resets_and_skips testEnv testProps 100 64 overrunIter midState
     (by decide) (by decide) (by decide) (by decide)⟩

/-- Claim C4: on a wraparound advance (hardware current address below the
last address) without overrun, the computed byte span is
`(wrapAddress - lastAddress) + (currentAddress - readOffset)` and it is
transferred as exactly two contiguous DMA reads: `wrapAddress -
lastAddress` bytes from `lastAddress` and `currentAddress - readOffset`
bytes from `readOffset`, followed by one audio packet covering the span. -/
theorem c4_wraparound_span (i : IterInput) (audioBufferBytes : Nat)
    (o : AudioOffsets)
    (hwf : offsetsWF o) (hcap : o.wrapAddress < w32)
    (hsum : align4 i.audioLastIn + o.readOffset < w32)
    (hwrap : align4 i.audioLastIn + o.readOffset < o.lastAddress)
    (hnov : (audioStep i audioBufferBytes o).overrun = false) :
    (audioStep i audioBufferBytes o).offsets.bytesRead =
      (o.wrapAddress - o.lastAddress) +
        ((align4 i.audioLastIn + o.readOffset) - o.readOffset) ∧
    (audioStep i audioBufferBytes o).events =
      [Event.dmaAudio o.lastAddress (o.wrapAddress - o.lastAddress),
       Event.dmaAudio o.readOffset
         ((align4 i.audioLastIn + o.readOffset) - o.readOffset),
       Event.audioPacket (((o.wrapAddress - o.lastAddress) +
         ((align4 i.audioLastIn + o.readOffset) - o.readOffset)) / 32)] := by
  obtain ⟨hrl, hlw⟩ := hwf
  have hcur : add32 (align4 i.audioLastIn) o.readOffset =
      align4 i.audioLastIn + o.readOffset := add32_eq _ _ hsum
  have hb1 : sub32 o.wrapAddress o.lastAddress = o.wrapAddress - o.lastAddress :=
    sub32_eq _ _ hlw hcap
  have hseg : sub32 (align4 i.audioLastIn + o.readOffset) o.readOffset =
      align4 i.audioLastIn := by
    rw [sub32_eq _ _ (Nat.le_add_left _ _) hsum]
    omega
  have hadd : add32 (o.wrapAddress - o.lastAddress) (align4 i.audioLastIn) =
      (o.wrapAddress - o.lastAddress) + align4 i.audioLastIn :=
    add32_eq _ _ (by simp only [w32_eq] at *; omega)
  simp only [audioStep, hcur, hb1, hseg, hadd] at hnov ⊢
  rw [if_pos hwrap] at hnov ⊢
  split_ifs at hnov ⊢ <;> simp_all

/-- Witness for C4: the wrapped span 500 + 40 bytes against the real
401 KiB audio buffer. -/
theorem c4_wraparound_span_witness :
    offsetsWF midOffsets ∧
    midOffsets.wrapAddress < w32 ∧
    align4 overrunIter.audioLastIn + midOffsets.readOffset < w32 ∧
    align4 overrunIter.audioLastIn + midOffsets.readOffset <
      midOffsets.lastAddress ∧
    (audioStep overrunIter ntv2AudioSizeMax midOffsets).overrun = false ∧
    ((audioStep overrunIter ntv2AudioSizeMax midOffsets).offsets.bytesRead =
      (midOffsets.wrapAddress - midOffsets.lastAddress) +
        ((align4 overrunIter.audioLastIn + midOffsets.readOffset) -
          midOffsets.readOffset) ∧
    (audioStep overrunIter ntv2AudioSizeMax midOffsets).events =
      [Event.dmaAudio midOffsets.lastAddress
         (midOffsets.wrapAddress - midOffsets.lastAddress),
       Event.dmaAudio midOffsets.readOffset
         ((align4 overrunIter.audioLastIn + midOffsets.readOffset) -
           midOffsets.readOffset),
       Event.audioPacket (((midOffsets.wrapAddress - midOffsets.lastAddress) +
         ((align4 overrunIter.audioLastIn + midOffsets.readOffset) -
           midOffsets.readOffset)) / 32)]) :=
  ⟨by decide, by decide, by decide, by decide, by decide,
   c4_wraparound_span overrunIter ntv2AudioSizeMax midOffsets
     (by decide) (by decide) (by decide) (by decide) (by decide)⟩

/-- Claim C8: the invariant `readOffset ≤ lastAddress ≤ wrapAddress` holds
after every reset, the capture thread starts from freshly reset offsets,
the invariant is preserved by every advance step (assuming the
hardware-reported last-in address stays below the hardware wrap address
and the hardware pointers are the ones the offsets were reset from), and
offsets are reset on every detected overrun. -/
theorem c8_offsets_invariant (env : CardEnv) (props : SourceProps)
    (audioBufferBytes initVideoBytes initPatternSize : Nat)
    (i : IterInput) (o : AudioOffsets)
    (hwf : offsetsWF o)
    (hro : o.readOffset = i.hwReadOffset)
    (hwa : o.wrapAddress = add32 i.hwWrapAddress i.hwReadOffset)
    (hlast : i.audioLastIn < i.hwWrapAddress)
    (hbound : i.hwReadOffset + i.hwWrapAddress < w32) :
    offsetsWF (resetAudioBufferOffsets i.hwReadOffset i.hwWrapAddress) ∧
    (captureThread env props audioBufferBytes initVideoBytes initPatternSize
        i.hwReadOffset i.hwWrapAddress []).finalState.offsets =
      resetAudioBufferOffsets i.hwReadOffset i.hwWrapAddress ∧
    offsetsWF (audioStep i audioBufferBytes o).offsets ∧
    ((audioStep i audioBufferBytes o).overrun = true →
      (audioStep i audioBufferBytes o).offsets =
        resetAudioBufferOffsets i.hwReadOffset i.hwWrapAddress) := by
  have hb : i.hwWrapAddress + i.hwReadOffset < w32 := by omega
  have hwaeq : o.wrapAddress = i.hwWrapAddress + i.hwReadOffset := by
    rw [hwa, add32_eq _ _ hb]
  have hal : align4 i.audioLastIn ≤ i.audioLastIn := align4_le _
  have hcur : add32 (align4 i.audioLastIn) o.readOffset =
      align4 i.audioLastIn + i.hwReadOffset := by
    rw [hro, add32_eq]
    omega
  have hreset : offsetsWF (resetAudioBufferOffsets i.hwReadOffset i.hwWrapAddress) := by
    unfold offsetsWF resetAudioBufferOffsets
    rw [add32_eq _ _ hb]
    simp
  refine ⟨hreset, ?_, ?_, ?_⟩
  · simp [captureThread, captureLoop]
  · obtain ⟨h1, h2⟩ := hwf
    simp only [audioStep, hcur]
    split_ifs <;>
      simp_all [offsetsWF, resetAudioBufferOffsets, add32_eq _ _ hb] <;>
      omega
  · intro hov
    exact (audioStep_overrun i audioBufferBytes o hov).1

/-- Witness for C8 at concrete offsets and hardware pointers. -/
theorem c8_offsets_invariant_witness :
    offsetsWF midOffsets ∧
    midOffsets.readOffset = overrunIter.hwReadOffset ∧
    midOffsets.wrapAddress =
      add32 overrunIter.hwWrapAddress overrunIter.hwReadOffset ∧
    overrunIter.audioLastIn < overrunIter.hwWrapAddress ∧
    overrunIter.hwReadOffset + overrunIter.hwWrapAddress < w32 ∧
    (offsetsWF (resetAudioBufferOffsets overrunIter.hwReadOffset
        overrunIter.hwWrapAddress) ∧
    (captureThread testEnv testProps ntv2AudioSizeMax 0 0
        overrunIter.hwReadOffset overrunIter.hwWrapAddress []).finalState.offsets =
      resetAudioBufferOffsets overrunIter.hwReadOffset overrunIter.hwWrapAddress ∧
    offsetsWF (audioStep overrunIter ntv2AudioSizeMax midOffsets).offsets ∧
    ((audioStep overrunIter ntv2AudioSizeMax midOffsets).overrun = true →
      (audioStep overrunIter ntv2AudioSizeMax midOffsets).offsets =
        resetAudioBufferOffsets overrunIter.hwReadOffset
          overrunIter.hwWrapAddress)) :=
  ⟨by decide, by decide, by decide, by decide, by decide,
   c8_offsets_invariant testEnv testProps ntv2AudioSizeMax 0 0 overrunIter
     midOffsets (by decide) (by decide) (by decide) (by decide) (by decide)⟩

/-- Claim C2: with auto-detect enabled, an iteration that observes a live
input format (after special-case remapping) different from the configured
one makes the loop terminate immediately with exactly one scheduled
reconfiguration and no video frame emitted from that iteration onward —
regardless of how many further iterations the trace would have offered. -/
theorem c2_format_change_stops_loop (env : CardEnv) (props : SourceProps)
    (audioBufferBytes videoBufferBytes : Nat) (i : IterInput)
    (rest : List IterInput) (s : LoopState)
    (hc : i.capturing = true) (hm : i.modelFound = true)
    (hraw : i.rawInputFormat ≠ VideoFormat.unknown)
    (hauto : props.autoDetect = true)
    (hdiff : props.videoFormat ≠
      env.handleSpecialCaseFormats props.ioSelect i.rawInputFormat props.deviceID) :
    (captureLoop env props audioBufferBytes videoBufferBytes (i :: rest) s).2 =
      [Event.scheduleUpdate] := by
  have hiter :
      captureIter env props audioBufferBytes videoBufferBytes i s =
        { state := { s with currentCardFrame := s.currentCardFrame ^^^ 1 },
          events := [Event.scheduleUpdate], control := Control.brk } := by
    simp only [captureIter, hm, not_true_eq_false, if_false, hraw, ite_false]
    rw [if_pos ⟨hauto, hdiff⟩]
  simp [captureLoop, hc, hiter]

/-- Witness for C2: a concrete format change with further iterations
pending. -/
theorem c2_format_change_stops_loop_witness :
    overrunIter.capturing = true ∧
    overrunIter.modelFound = true ∧
    overrunIter.rawInputFormat ≠ VideoFormat.unknown ∧
    autoProps.autoDetect = true ∧
    autoProps.videoFormat ≠
      testEnv.handleSpecialCaseFormats autoProps.ioSelect
        overrunIter.rawInputFormat autoProps.deviceID ∧
    (captureLoop testEnv autoProps ntv2AudioSizeMax 64
        [overrunIter, overrunIter] midState).2 = [Event.scheduleUpdate] :=
  ⟨by decide, by decide, by decide, by decide, by decide,
   c2_format_change_stops_loop testEnv autoProps ntv2AudioSizeMax 64
     overrunIter [overrunIter] midState
     (by decide) (by decide) (by decide) (by decide) (by decide)⟩

/-! ## Wire-format resolver event lemmas -/

theorem probeInputSource_events (env : CardEnv) (deviceID : Nat)
    (src : InputSource) (st : RWFState) :
    ∀ e ∈ (probeInputSource env deviceID src st).events,
      e ∈ st.events ∨ e.isHwProbe = true := by
  intro e he
  cases src <;> simp only [probeInputSource] at he <;> repeat' split at he
  all_goals
    simp only [List.append_assoc, List.mem_append, List.mem_cons,
      List.not_mem_nil, or_false, List.mem_singleton] at he
  all_goals
    first
      | (rcases he with h | rfl | rfl | rfl
         · exact Or.inl h
         all_goals exact Or.inr rfl)
      | (rcases he with h | rfl | rfl
         · exact Or.inl h
         all_goals exact Or.inr rfl)
      | (rcases he with h | rfl
         · exact Or.inl h
         · exact Or.inr rfl)

theorem foldl_probe_events (env : CardEnv) (deviceID : Nat)
    (srcs : List InputSource) :
    ∀ (st : RWFState), ∀ e ∈ (srcs.foldl
        (fun acc src => probeInputSource env deviceID src acc) st).events,
      e ∈ st.events ∨ e.isHwProbe = true := by
  induction srcs with
  | nil => intro st e he; exact Or.inl he
  | cons s rest ih =>
    intro st e he
    simp only [List.foldl_cons] at he
    rcases ih (probeInputSource env deviceID s st) e he with h | h
    · exact probeInputSource_events env deviceID s st e h
    · exact Or.inr h

theorem readWireFormats_events_probe (env : CardEnv) (deviceID : Nat)
    (ioSel : IOSelection) (vf0 : VideoFormat) (pf0 : PixelFormat)
    (vpids0 : List VPIDData) :
    ∀ e ∈ (readWireFormats env deviceID ioSel vf0 pf0 vpids0).events,
      e.isHwProbe = true := by
  intro e he
  unfold readWireFormats at he
  cases hsrcs : env.ioToInputSources ioSel with
  | nil =>
    rw [hsrcs] at he
    simp at he
  | cons initial rest =>
    rw [hsrcs] at he
    simp only [List.mem_append, List.mem_cons, List.not_mem_nil, or_false] at he
    rcases he with he | he
    · rcases foldl_probe_events env deviceID (initial :: rest)
        { pf := pf0, vpids := vpids0, events := [] } e he with hmem | hmem
      · simp at hmem
      · exact hmem
    · subst he
      rfl

theorem readWireFormats_no_configureRoute (env : CardEnv) (deviceID : Nat)
    (ioSel : IOSelection) (vf0 : VideoFormat) (pf0 : PixelFormat)
    (vpids0 : List VPIDData) :
    Event.configureRoute ∉
      (readWireFormats env deviceID ioSel vf0 pf0 vpids0).events := by
  intro hmem
  have := readWireFormats_events_probe env deviceID ioSel vf0 pf0 vpids0 _ hmem
  simp [Event.isHwProbe] at this

theorem readWireFormats_no_deactivate (env : CardEnv) (deviceID : Nat)
    (ioSel : IOSelection) (vf0 : VideoFormat) (pf0 : PixelFormat)
    (vpids0 : List VPIDData) :
    Event.deactivate ∉
      (readWireFormats env deviceID ioSel vf0 pf0 vpids0).events := by
  intro hmem
  have := readWireFormats_events_probe env deviceID ioSel vf0 pf0 vpids0 _ hmem
  simp [Event.isHwProbe] at this

theorem readWireFormats_no_activate (env : CardEnv) (deviceID : Nat)
    (ioSel : IOSelection) (vf0 : VideoFormat) (pf0 : PixelFormat)
    (vpids0 : List VPIDData) :
    Event.activate ∉
      (readWireFormats env deviceID ioSel vf0 pf0 vpids0).events := by
  intro hmem
  have := readWireFormats_events_probe env deviceID ioSel vf0 pf0 vpids0 _ hmem
  simp [Event.isHwProbe] at this

theorem updateFinish_completed (env : UpdateEnv) (settings : Settings)
    (st2 : SessionState) (evs2 : List Event) (wantIo : IOSelection)
    (hcfg : Event.configureRoute ∉ evs2)
    (h : (updateFinish env settings st2 evs2 wantIo).outcome =
      UpdateOutcome.completed) :
    (Event.configureRoute ∈ (updateFinish env settings st2 evs2 wantIo).events ↔
      (¬ st2.initialized = true ∨
        (updateFinish env settings st2 evs2 wantIo).derived ≠ some st2.props)) ∧
    ((¬ st2.initialized = true ∨
        (updateFinish env settings st2 evs2 wantIo).derived ≠ some st2.props) →
      Event.deactivate ∈ (updateFinish env settings st2 evs2 wantIo).events) ∧
    (Event.deactivate ∉ evs2 →
      ¬ (¬ st2.initialized = true ∨
        (updateFinish env settings st2 evs2 wantIo).derived ≠ some st2.props) →
      Event.deactivate ∉ (updateFinish env settings st2 evs2 wantIo).events) := by
  have hrwfc := readWireFormats_no_configureRoute env.cardEnv env.cardDeviceID
    wantIo (wantVideoFormat settings) (wantPixelFormat settings) []
  have hrwfd := readWireFormats_no_deactivate env.cardEnv env.cardDeviceID
    wantIo (wantVideoFormat settings) (wantPixelFormat settings) []
  simp only [updateFinish] at h ⊢
  generalize hgen : readWireFormats env.cardEnv env.cardDeviceID wantIo
    (wantVideoFormat settings) (wantPixelFormat settings) [] = r at h hrwfc hrwfd ⊢
  by_cases hok : r.ok = true
  · rw [if_neg (by simpa using hok)] at h ⊢
    by_cases hfmt : resolvedVideoFormat settings r = VideoFormat.unknown ∨
        resolvedPixelFormat settings r = PixelFormat.invalid
    · rw [if_pos hfmt] at h
      simp at h
    · rw [if_neg hfmt] at h ⊢
      by_cases hfire : ¬ st2.initialized = true ∨
          derivedProps env settings wantIo r ≠ st2.props
      · rw [if_pos hfire, if_pos hfire]
        refine ⟨?_, ?_, ?_⟩
        · constructor
          · intro _
            simpa [Option.some.injEq] using hfire
          · intro _
            simp
        · intro _
          simp
        · intro _ hnf
          exact absurd (by simpa [Option.some.injEq] using hfire) hnf
      · rw [if_neg hfire, if_neg hfire]
        refine ⟨?_, ?_, ?_⟩
        · simp only [List.mem_append, List.mem_cons, List.not_mem_nil,
            or_false]
          constructor
          · intro hmem
            rcases hmem with (hmem | hmem) | hmem | hmem
            · exact absurd hmem hcfg
            · exact absurd hmem hrwfc
            · exact absurd hmem (by simp)
            · exact absurd hmem (by simp)
          · intro htr
            exact absurd (by simpa [Option.some.injEq] using htr) hfire
        · intro htr
          exact absurd (by simpa [Option.some.injEq] using htr) hfire
        · intro hdea _ hmem
          simp only [List.mem_append, List.mem_cons, List.not_mem_nil,
            or_false] at hmem
          rcases hmem with (hmem | hmem) | hmem | hmem
          · exact absurd hmem hdea
          · exact absurd hmem hrwfd
          · exact absurd hmem (by simp)
          · exact absurd hmem (by simp)
  · rw [if_pos (by simpa using hok)] at h
    simp at h

theorem updateCardChange_props (env : UpdateEnv) (settings : Settings)
    (st : SessionState) :
    (updateCardChange env settings st).1.props = st.props := by
  unfold updateCardChange
  by_cases h1 : settings.wantCardID = st.cardID <;>
    by_cases h2 : env.cardEntryFound st.cardID = true <;>
    by_cases h3 : env.releaseOk st.props.ioSelect = true <;>
    simp [h1, h2, h3]

theorem updateCardChange_initialized (env : UpdateEnv) (settings : Settings)
    (st : SessionState) :
    ((updateCardChange env settings st).1.initialized = true ↔
      (st.initialized = true ∧ settings.wantCardID = st.cardID)) := by
  unfold updateCardChange
  by_cases h1 : settings.wantCardID = st.cardID <;>
    by_cases h2 : env.cardEntryFound st.cardID = true <;>
    by_cases h3 : env.releaseOk st.props.ioSelect = true <;>
    simp [h1, h2, h3]

theorem updateCardChange_no_configureRoute (env : UpdateEnv)
    (settings : Settings) (st : SessionState) :
    Event.configureRoute ∉ (updateCardChange env settings st).2.1 := by
  unfold updateCardChange
  by_cases h1 : settings.wantCardID = st.cardID <;>
    by_cases h2 : env.cardEntryFound st.cardID = true <;>
    by_cases h3 : env.releaseOk st.props.ioSelect = true <;>
    simp [h1, h2, h3]

theorem updateCardChange_deactivate (env : UpdateEnv) (settings : Settings)
    (st : SessionState) :
    (Event.deactivate ∈ (updateCardChange env settings st).2.1 ↔
      settings.wantCardID ≠ st.cardID) := by
  unfold updateCardChange
  by_cases h1 : settings.wantCardID = st.cardID <;>
    by_cases h2 : env.cardEntryFound st.cardID = true <;>
    by_cases h3 : env.releaseOk st.props.ioSelect = true <;>
    simp [h1, h2, h3]

set_option maxHeartbeats 1600000 in
theorem ajaSourceUpdate_completed_shape (env : UpdateEnv) (settings : Settings)
    (st : SessionState)
    (h : (ajaSourceUpdate env settings st).outcome = UpdateOutcome.completed) :
    ∃ st2 evs2 wantIo,
      ajaSourceUpdate env settings st = updateFinish env settings st2 evs2 wantIo ∧
      st2.props = st.props ∧
      (st2.initialized = true ↔
        (st.initialized = true ∧ settings.wantCardID = st.cardID)) ∧
      Event.configureRoute ∉ evs2 ∧
      (Event.deactivate ∈ evs2 ↔ settings.wantCardID ≠ st.cardID) := by
  simp only [ajaSourceUpdate] at h ⊢
  split_ifs at h ⊢
  all_goals try simp at h
  all_goals refine ⟨_, _, _, rfl, ?_, ?_, ?_, ?_⟩
  all_goals simp_all [List.mem_append, updateCardChange_props,
    updateCardChange_initialized, updateCardChange_no_configureRoute,
    updateCardChange_deactivate]

set_option maxHeartbeats 800000 in
/-- Claim C3: on every completed `aja_source_update` call, the capture
thread is torn down and routing reconfigured if and only if the freshly
derived `SourceProps` differ from the stored ones or the one-time
initialization flag is clear at the decision point (the flag is cleared
when the selected card changes); when the props are equal and
initialization has happened, no teardown and no re-route occurs. -/
theorem c3_teardown_iff_props_changed (env : UpdateEnv) (settings : Settings)
    (st : SessionState)
    (h : (ajaSourceUpdate env settings st).outcome = UpdateOutcome.completed) :
    updateTeardownConcl env settings st := by
  obtain ⟨st2, evs2, wantIo, heq, hprops, hinit, hcfg2, hdea2⟩ :=
    ajaSourceUpdate_completed_shape env settings st h
  rw [heq] at h
  unfold updateTeardownConcl teardownTrigger
  rw [heq]
  obtain ⟨hiff, hfa, hna⟩ :=
    updateFinish_completed env settings st2 evs2 wantIo hcfg2 h
  rw [hprops] at hiff hfa hna
  constructor
  · constructor
    · intro hc
      rcases hiff.mp hc.1 with h1 | h2
      · exact Or.inl fun hh => h1 (hinit.mpr hh)
      · exact Or.inr h2
    · intro htr
      have hfire : ¬ st2.initialized = true ∨
          (updateFinish env settings st2 evs2 wantIo).derived ≠
            some st.props := by
        rcases htr with h1 | h2
        · by_cases hi : st2.initialized = true
          · exact absurd (hinit.mp hi) h1
          · exact Or.inl hi
        · exact Or.inr h2
      exact ⟨hiff.mpr hfire, hfa hfire⟩
  · intro hntr
    have hnf : ¬ (¬ st2.initialized = true ∨
        (updateFinish env settings st2 evs2 wantIo).derived ≠
          some st.props) := by
      intro hf
      apply hntr
      rcases hf with h1 | h2
      · exact Or.inl fun hh => h1 (hinit.mpr hh)
      · exact Or.inr h2
    have hsame : settings.wantCardID = st.cardID := by
      by_contra hne
      exact hntr (Or.inl fun hh => hne hh.2)
    exact ⟨fun hc => hnf (hiff.mp hc),
      hna (fun hd => (hdea2.mp hd) hsame) hnf⟩

/-- Witness for C3: a completed concrete update (auto-detect off, valid
formats, acquire succeeding). -/
theorem c3_teardown_iff_props_changed_witness :
    (ajaSourceUpdate updEnv updSettings updState).outcome =
      UpdateOutcome.completed ∧
    updateTeardownConcl updEnv updSettings updState :=
  ⟨by decide,
   c3_teardown_iff_props_changed updEnv updSettings updState (by decide)⟩

theorem updateCardChange_no_activate (env : UpdateEnv) (settings : Settings)
    (st : SessionState) :
    Event.activate ∉ (updateCardChange env settings st).2.1 := by
  unfold updateCardChange
  by_cases h1 : settings.wantCardID = st.cardID <;>
    by_cases h2 : env.cardEntryFound st.cardID = true <;>
    by_cases h3 : env.releaseOk st.props.ioSelect = true <;>
    simp [h1, h2, h3]

theorem updateFinish_abort (env : UpdateEnv) (settings : Settings)
    (st2 : SessionState) (evs2 : List Event) (wantIo : IOSelection)
    (h : (updateFinish env settings st2 evs2 wantIo).outcome =
        UpdateOutcome.rwfFailed ∨
      (updateFinish env settings st2 evs2 wantIo).outcome =
        UpdateOutcome.invalidFormat) :
    (updateFinish env settings st2 evs2 wantIo).state = st2 ∧
    (updateFinish env settings st2 evs2 wantIo).acquired = some wantIo ∧
    Event.releaseInput wantIo (env.releaseOk wantIo) ∈
      (updateFinish env settings st2 evs2 wantIo).events ∧
    (∀ e ∈ evs2, e ∈ (updateFinish env settings st2 evs2 wantIo).events) ∧
    (Event.activate ∉ evs2 →
      Event.activate ∉ (updateFinish env settings st2 evs2 wantIo).events) := by
  have hrwfa := readWireFormats_no_activate env.cardEnv env.cardDeviceID
    wantIo (wantVideoFormat settings) (wantPixelFormat settings) []
  simp only [updateFinish] at h ⊢
  generalize hgen : readWireFormats env.cardEnv env.cardDeviceID wantIo
    (wantVideoFormat settings) (wantPixelFormat settings) [] = r at h hrwfa ⊢
  by_cases hok : r.ok = true
  · rw [if_neg (by simpa using hok)] at h ⊢
    by_cases hfmt : resolvedVideoFormat settings r = VideoFormat.unknown ∨
        resolvedPixelFormat settings r = PixelFormat.invalid
    · rw [if_pos hfmt] at h ⊢
      refine ⟨rfl, rfl, by simp, ?_, ?_⟩
      · intro e he
        simp [he]
      · intro hact hmem
        simp only [List.mem_append, List.mem_cons, List.not_mem_nil,
          or_false] at hmem
        rcases hmem with (hmem | hmem) | hmem
        · exact absurd hmem hact
        · exact absurd hmem hrwfa
        · exact absurd hmem (by simp)
    · rw [if_neg hfmt] at h
      by_cases hfire : ¬ st2.initialized = true ∨
          derivedProps env settings wantIo r ≠ st2.props
      · rw [if_pos hfire] at h
        simp at h
      · rw [if_neg hfire] at h
        simp at h
  · rw [if_pos (by simpa using hok)] at h ⊢
    refine ⟨rfl, rfl, by simp, ?_, ?_⟩
    · intro e he
      simp [he]
    · intro hact hmem
      simp only [List.mem_append, List.mem_cons, List.not_mem_nil,
        or_false] at hmem
      rcases hmem with (hmem | hmem) | hmem
      · exact absurd hmem hact
      · exact absurd hmem hrwfa
      · exact absurd hmem (by simp)

set_option maxHeartbeats 1600000 in
theorem ajaSourceUpdate_abort_shape (env : UpdateEnv) (settings : Settings)
    (st : SessionState)
    (h : (ajaSourceUpdate env settings st).outcome = UpdateOutcome.rwfFailed ∨
      (ajaSourceUpdate env settings st).outcome = UpdateOutcome.invalidFormat) :
    ∃ st2 evs2 wantIo,
      ajaSourceUpdate env settings st = updateFinish env settings st2 evs2 wantIo ∧
      st2.props = st.props ∧
      Event.activate ∉ evs2 ∧
      Event.acquireInput wantIo true ∈ evs2 := by
  simp only [ajaSourceUpdate] at h ⊢
  split_ifs at h ⊢
  all_goals try simp at h
  all_goals refine ⟨_, _, _, rfl, ?_, ?_, ?_⟩
  all_goals simp_all [List.mem_append, updateCardChange_props,
    updateCardChange_no_activate]

/-- Claim C5: every `aja_source_update` call in which wire-format
resolution fails (no input sources) or yields unknown/invalid formats is
aborted: the stored `SourceProps` are unchanged, the capture thread is not
(re)started, and the input-selection lease acquired during the call is
released again. -/
theorem c5_resolution_failure_aborts (env : UpdateEnv) (settings : Settings)
    (st : SessionState)
    (h : (ajaSourceUpdate env settings st).outcome = UpdateOutcome.rwfFailed ∨
      (ajaSourceUpdate env settings st).outcome = UpdateOutcome.invalidFormat) :
    updateAbortConcl env settings st := by
  obtain ⟨st2, evs2, wantIo, heq, hprops, hact2, hacq2⟩ :=
    ajaSourceUpdate_abort_shape env settings st h
  rw [heq] at h
  unfold updateAbortConcl
  rw [heq]
  obtain ⟨hst, hacq, hrel, hmono, hactf⟩ :=
    updateFinish_abort env settings st2 evs2 wantIo h
  exact ⟨by rw [hst, hprops], hactf hact2, wantIo, hacq,
    hmono _ hacq2, hrel⟩

/-- Witness for C5: a concrete update whose selection resolves to zero
input sources, so wire-format resolution fails. -/
theorem c5_resolution_failure_aborts_witness :
    ((ajaSourceUpdate updEnv updSettingsNoSources updState).outcome =
        UpdateOutcome.rwfFailed ∨
      (ajaSourceUpdate updEnv updSettingsNoSources updState).outcome =
        UpdateOutcome.invalidFormat) ∧
    updateAbortConcl updEnv updSettingsNoSources updState :=
  ⟨Or.inl (by decide),
   c5_resolution_failure_aborts updEnv updSettingsNoSources updState
     (Or.inl (by decide))⟩

end Aja
